import Mathlib

/- A shallow embedding of the cdk_utils library: the two-hop context
resolution and tagging done by CdkUtilStack, the local bundling procedure
(ADLocalBundling.try_bundle and bundle), and the Lambda factory
CdkUtilLambda.basic_lambda.  External framework boundaries (the CDK context
store, the tag registry, the filesystem, the package installer and the
Function constructor) are modelled as explicit parameters and result
records. -/

/-- Python values flowing through the CDK context API: None, strings and
string-keyed dictionaries. -/
inductive PyVal where
  | none
  | str (s : String)
  | dict (entries : List (String × PyVal))

/-- Python exceptions the embedded code can raise. -/
inductive PyErr where
  | attributeError
  deriving DecidableEq

/-- The CDK context store boundary: node.try_get_context as a total function
from the (arbitrary Python) key to the value found; a well-formed store
returns PyVal.none for absent keys. -/
abbrev ContextStore := PyVal → PyVal

/-- CdkUtilStack.ENVIRONMENT_CONFIG_VAR. -/
def ENVIRONMENT_CONFIG_VAR : String := "config"

/-- CdkUtilStack.get_environment_specific_config: two context lookups, the
second keyed by whatever value the first returned, the result returned
unchanged. -/
def get_environment_specific_config (store : ContextStore) (config_name : String) : PyVal :=
  let config := store (PyVal.str config_name)
  let cdk_env := store config
  cdk_env

/-- Python dict.get with default None, on the entries of a PyVal.dict. -/
def pyDictGet (entries : List (String × PyVal)) (k : String) : PyVal :=
  match entries.find? (fun e => e.1 == k) with
  | some e => e.2
  | none => PyVal.none

/-- Python attribute access v.get(k): only dictionaries have a .get method;
on None (or any non-dict value) the access raises AttributeError. -/
def pyGet : PyVal → String → Except PyErr PyVal
  | PyVal.dict entries, k => Except.ok (pyDictGet entries k)
  | _, _ => Except.error PyErr.attributeError

/-- What CdkUtilStack.__init__ produces: the resolved cdk_env and the tag
entries this component adds to the stack tag registry, in order. -/
structure StackInit where
  cdk_env : PyVal
  tags : List (String × PyVal)

/-- CdkUtilStack.__init__: resolve the configuration, then add the
application and environment tags, reading both tag values with .get on the
resolved record. -/
def cdkUtilStackInit (store : ContextStore) : Except PyErr StackInit :=
  let cdk_env := get_environment_specific_config store ENVIRONMENT_CONFIG_VAR
  match pyGet cdk_env "project" with
  | Except.error e => Except.error e
  | Except.ok p =>
    match pyGet cdk_env "environment" with
    | Except.error e => Except.error e
    | Except.ok v => Except.ok ⟨cdk_env, [("application", p), ("environment", v)]⟩

/-- Filesystem paths as component lists. -/
abbrev FPath := List String

/-- A filesystem snapshot: a partial map from file paths to contents. -/
abbrev FS := FPath → Option String

/-- relTo dir p strips dir from the front of p: some rel exactly when
p = dir ++ rel. -/
def relTo : FPath → FPath → Option FPath
  | [], p => some p
  | _ :: _, [] => none
  | a :: d, b :: p => if b = a then relTo d p else none

/-- Write a tree of files (a partial map of paths relative to dir) under
dir, leaving every other path of the filesystem unchanged. -/
def overlay (dir : FPath) (tree : FPath → Option String) (fs : FS) : FS :=
  fun p =>
    match relTo dir p with
    | some rel =>
      match tree rel with
      | some c => some c
      | none => fs p
    | none => fs p

/-- shutil.copytree src dst with dirs_exist_ok=True: merge the src subtree
into dst, same-name files overwritten, everything else untouched. -/
def copytree (src dst : FPath) (fs : FS) : FS :=
  overlay dst (fun rel => fs (src ++ rel)) fs

/-- Modelled from the spec: the external package installer invoked through
os.system in bundle (the installer binary is not part of this repository).
Given the manifest contents it deterministically produces a tree of
installed files, directed into the target directory, plus a process exit
status that the caller is free to ignore. -/
structure Installer where
  files : Option String → FPath → Option String
  exitCode : Option String → Nat

/-- Python f-string rendering of a possibly-None path argument. -/
def pyPath : Option FPath → FPath
  | some p => p
  | none => ["None"]

/-- bundle: run the installer on local_base_dir/requirements.txt targeting
output_dir (exit status discarded), then copytree local_base_dir/src into
output_dir as a merge.  base_dir and local_lib are accepted and never used,
as in the source. -/
def bundle (inst : Installer) (base_dir local_base_dir local_lib : Option FPath)
    (output_dir : FPath) (fs : FS) : FS :=
  let manifest := fs (pyPath local_base_dir ++ ["requirements.txt"])
  let fs1 := overlay output_dir (inst.files manifest) fs
  copytree (pyPath local_base_dir ++ ["src"]) output_dir fs1

/-- ADLocalBundling.try_bundle: read the three paths from the bundling
options environment, call bundle, and return True unconditionally. -/
def try_bundle (inst : Installer) (optionsEnv : String → Option FPath)
    (output_dir : FPath) (fs : FS) : FS × Bool :=
  (bundle inst (optionsEnv "base_dir") (optionsEnv "local_base_dir")
    (optionsEnv "local_lib") output_dir fs, true)

/-- Python dicts holding Lambda environment variables, as partial maps. -/
abbrev EnvMap := String → Option String

/-- Python dict.update semantics on unique-keyed dicts: entries of other
overwrite entries of m. -/
def pyDictUpdate (m other : EnvMap) : EnvMap :=
  fun k =>
    match other k with
    | some v => some v
    | none => m k

/-- os.path.join for the paths basic_lambda builds. -/
def pathJoin (a b : String) : String := a ++ "/" ++ b

/-- The BundlingOptions record the factory builds for the asset. -/
structure BundlingOpts where
  image : String
  command : List String
  env_base_dir : String
  env_local_base_dir : String

/-- Code.from_asset arguments. -/
structure CodeAsset where
  asset_path : String
  bundling : BundlingOpts

/-- The argument record handed to the external lambda Function constructor;
arguments the source never passes sit at the constructor defaults, in
particular reserved_concurrent_executions stays None. -/
structure FunctionProps where
  scope_stack : String
  id : String
  code : CodeAsset
  handler : String
  runtime : String
  description : String
  log_retention : String
  timeout_seconds : Nat
  retry_attempts : Nat
  environment : EnvMap
  layers : List String
  memory_size : Nat
  dead_letter_queue : Option String
  role : Option String
  reserved_concurrent_executions : Option Nat

/-- CdkUtilLambda instance state. -/
structure CdkUtilLambda where
  default_runtime : String
  default_log_retention : String
  default_env : EnvMap

/-- CdkUtilLambda.__init__: only default_env is None-coalesced, to an empty
dict. -/
def CdkUtilLambda.init (default_runtime default_log_retention : String)
    (default_env : Option EnvMap) : CdkUtilLambda :=
  ⟨default_runtime, default_log_retention, default_env.getD (fun _ => none)⟩

/-- CdkUtilLambda.basic_lambda.  Returns the Function constructor argument
record together with the final contents of the caller-passed environment
dict: the source merges the factory defaults into that dict in place, so
after the call the caller-visible object holds the merged map. -/
def CdkUtilLambda.basic_lambda (self : CdkUtilLambda)
    (stack name src_path base_path rel_src_path : String)
    (timeout_sec : Nat) (description : String)
    (memory_size retry_attempts : Nat)
    (environment : Option EnvMap)
    (lambda_runtime log_retention : Option String)
    (layers : Option (List String))
    (reserved_concurrent_executions : Option Nat)
    (dead_letter_queue role : Option String) : FunctionProps × EnvMap :=
  let env1 := pyDictUpdate (environment.getD (fun _ => none)) self.default_env
  ({ scope_stack := stack
     id := name
     code := { asset_path := pathJoin src_path name
               bundling := { image := "PYTHON_3_13.bundling_image"
                             command := ["bash", "-c",
                               "pip install -r requirements.txt -t /asset-output && cp -r src/. /asset-output"]
                             env_base_dir := base_path
                             env_local_base_dir := pathJoin (pathJoin base_path rel_src_path) name } }
     handler := name ++ ".lambda_handler"
     runtime := lambda_runtime.getD self.default_runtime
     description := description
     log_retention := log_retention.getD self.default_log_retention
     timeout_seconds := timeout_sec
     retry_attempts := retry_attempts
     environment := env1
     layers := layers.getD []
     memory_size := memory_size
     dead_letter_queue := dead_letter_queue
     role := role
     reserved_concurrent_executions := none }, env1)

/-- A well-formed sample context store: config resolves to dev, dev to a
two-key record. -/
def store0 : ContextStore :=
  fun v =>
    match v with
    | PyVal.str "config" => PyVal.str "dev"
    | PyVal.str "dev" =>
      PyVal.dict [("project", PyVal.str "p1"), ("environment", PyVal.str "development")]
    | _ => PyVal.none

/-- A store whose first hop misses but which makes the second lookup
observable: looking up the None key returns a sentinel string. -/
def probeStore : ContextStore :=
  fun v =>
    match v with
    | PyVal.none => PyVal.str "reached-second-lookup"
    | _ => PyVal.none

/-- A store with no entries at all. -/
def emptyStore : ContextStore := fun _ => PyVal.none

/-- A store where the first hop resolves to dev but dev has no entry. -/
def halfStore : ContextStore :=
  fun v =>
    match v with
    | PyVal.str "config" => PyVal.str "dev"
    | _ => PyVal.none

/-- A sample installer: installs the single file dep.py whatever the
manifest says, and always exits non-zero. -/
def inst0 : Installer where
  files := fun _ r => if r = ["dep.py"] then some "DEP" else none
  exitCode := fun _ => 1

/-- A sample filesystem: one manifest and one source file under app. -/
def fs0 : FS :=
  fun p =>
    if p = ["app", "requirements.txt"] then some "somepkg"
    else if p = ["app", "src", "main.py"] then some "MAIN"
    else none

/-- A sample caller environment dict sharing the key SHARED with the
factory defaults. -/
def envCaller0 : EnvMap :=
  fun k => if k = "SHARED" then some "caller-value" else none

/-- The sample factory default environment. -/
def envDefault0 : EnvMap :=
  fun k => if k = "SHARED" then some "default-value" else none

/-- A sample factory instance. -/
def factory0 : CdkUtilLambda :=
  CdkUtilLambda.init "PYTHON_3_13" "ONE_MONTH" (some envDefault0)

/-- Stripping a path below its own directory recovers the relative part. -/
theorem relTo_append (d r : FPath) : relTo d (d ++ r) = some r := by
  induction d with
  | nil => rfl
  | cons a d ih => simp [relTo, ih]

/-- A path with relTo some decomposes as directory plus relative part. -/
theorem relTo_some (d : FPath) : ∀ p r, relTo d p = some r → p = d ++ r := by
  induction d with
  | nil =>
    intro p r h
    simp only [relTo, Option.some.injEq] at h
    simp [h]
  | cons a d ih =>
    intro p r h
    cases p with
    | nil => simp [relTo] at h
    | cons b q =>
      by_cases hba : b = a
      · subst hba
        simp only [relTo, if_pos rfl] at h
        simp [ih q r h]
      · simp [relTo, hba] at h

/-- overlay leaves paths outside the target directory unchanged. -/
theorem overlay_out (dir : FPath) (tree : FPath → Option String) (fs : FS) (p : FPath)
    (h : relTo dir p = none) : overlay dir tree fs p = fs p := by
  simp [overlay, h]

/-- overlay below the target directory: the tree wins where defined. -/
theorem overlay_in (dir : FPath) (tree : FPath → Option String) (fs : FS) (r : FPath) :
    overlay dir tree fs (dir ++ r) =
      match tree r with
      | some c => some c
      | none => fs (dir ++ r) := by
  simp [overlay, relTo_append]

/-- bundle leaves paths outside output_dir unchanged. -/
theorem bundle_out (inst : Installer) (b lb ll : Option FPath) (out : FPath)
    (fs : FS) (p : FPath) (h : relTo out p = none) :
    bundle inst b lb ll out fs p = fs p := by
  simp [bundle, copytree, overlay, h]

/-- What bundle produces below output_dir when the corresponding source
path is not itself below output_dir: the copied source file wins, else the
installed file, else the pre-existing file. -/
theorem bundle_at_out (inst : Installer) (b lb ll : Option FPath) (out : FPath)
    (fs : FS) (rel : FPath)
    (hsep : relTo out (pyPath lb ++ ["src"] ++ rel) = none) :
    bundle inst b lb ll out fs (out ++ rel) =
      match fs (pyPath lb ++ ["src"] ++ rel) with
      | some c => some c
      | none =>
        match inst.files (fs (pyPath lb ++ ["requirements.txt"])) rel with
        | some c => some c
        | none => fs (out ++ rel) := by
  simp only [bundle, copytree]
  rw [overlay_in]
  rw [overlay_out _ _ _ _ hsep, overlay_in]

/-- C1: when the first context hop returns an environment name E and the
second hop on E returns R, get_environment_specific_config returns exactly
R, with no transformation. -/
theorem c1_two_hop_identity (store : ContextStore) (k E : String) (R : PyVal)
    (h1 : store (PyVal.str k) = PyVal.str E) (h2 : store (PyVal.str E) = R) :
    get_environment_specific_config store k = R := by
  simp only [get_environment_specific_config]
  rw [h1, h2]

/-- C1 witness: the sample store resolves config to the dev record. -/
theorem c1_witness :
    get_environment_specific_config store0 "config" =
      PyVal.dict [("project", PyVal.str "p1"), ("environment", PyVal.str "development")] :=
  c1_two_hop_identity store0 "config" "dev" _ rfl rfl

/-- C2: try_bundle returns True for every installer (whatever its exit
status), options environment, output directory and filesystem. -/
theorem c2_try_bundle_true (inst : Installer) (optionsEnv : String → Option FPath)
    (out : FPath) (fs : FS) : (try_bundle inst optionsEnv out fs).2 = true := rfl

/-- C3 counterexample: with a store whose first hop misses, resolution does
not fail: the second lookup is still attempted, keyed by the undefined
value, and the sentinel probeStore returns for the None key becomes the
result of resolution. -/
theorem c3_counterexample :
    probeStore (PyVal.str "config") = PyVal.none ∧
      get_environment_specific_config probeStore "config" =
        PyVal.str "reached-second-lookup" :=
  ⟨rfl, rfl⟩

/-- C3 amended: when the first hop misses, the code still performs the
second lookup, keyed by the undefined value, and returns its result; no
ConfigurationMissing failure path exists in the code. -/
theorem c3_second_lookup_on_miss (store : ContextStore) (k : String)
    (h : store (PyVal.str k) = PyVal.none) :
    get_environment_specific_config store k = store PyVal.none := by
  simp only [get_environment_specific_config]
  rw [h]

/-- C3 amended witness: on the empty store the resolution result is the
store value at the None key. -/
theorem c3_witness :
    get_environment_specific_config emptyStore "config" = emptyStore PyVal.none :=
  c3_second_lookup_on_miss emptyStore "config" rfl

/-- C4: when resolution yields a record containing project and environment
entries, stack construction succeeds and the tag registry receives exactly
the entry application with the project value followed by the entry
environment with the environment value, and nothing else. -/
theorem c4_tags_exact (store : ContextStore) (R : List (String × PyVal)) (p e : PyVal)
    (hres : get_environment_specific_config store ENVIRONMENT_CONFIG_VAR = PyVal.dict R)
    (hp : R.find? (fun x => x.1 == "project") = some ("project", p))
    (he : R.find? (fun x => x.1 == "environment") = some ("environment", e)) :
    cdkUtilStackInit store =
      Except.ok ⟨PyVal.dict R, [("application", p), ("environment", e)]⟩ := by
  simp [cdkUtilStackInit, hres, pyGet, pyDictGet, hp, he]

/-- C4 witness: on the sample store construction adds exactly the two tags. -/
theorem c4_witness :
    cdkUtilStackInit store0 =
      Except.ok
        ⟨PyVal.dict [("project", PyVal.str "p1"), ("environment", PyVal.str "development")],
          [("application", PyVal.str "p1"), ("environment", PyVal.str "development")]⟩ :=
  c4_tags_exact store0
    [("project", PyVal.str "p1"), ("environment", PyVal.str "development")]
    (PyVal.str "p1") (PyVal.str "development") rfl rfl rfl

/-- C5: bundle first installs into output_dir, then merges
local_base_dir/src over it: at a given output path whose source
counterpart is not itself inside output_dir, a source file wins; where no
source file exists, an installed file wins; where neither exists, a
pre-existing output file is untouched; and paths outside output_dir are
never touched. -/
theorem c5_bundle_merge (inst : Installer) (b lb ll : Option FPath) (out : FPath)
    (fs : FS) (rel : FPath) (c : String) :
    (relTo out (pyPath lb ++ ["src"] ++ rel) = none →
        fs (pyPath lb ++ ["src"] ++ rel) = some c →
        bundle inst b lb ll out fs (out ++ rel) = some c) ∧
      (relTo out (pyPath lb ++ ["src"] ++ rel) = none →
        fs (pyPath lb ++ ["src"] ++ rel) = none →
        inst.files (fs (pyPath lb ++ ["requirements.txt"])) rel = some c →
        bundle inst b lb ll out fs (out ++ rel) = some c) ∧
      (relTo out (pyPath lb ++ ["src"] ++ rel) = none →
        fs (pyPath lb ++ ["src"] ++ rel) = none →
        inst.files (fs (pyPath lb ++ ["requirements.txt"])) rel = none →
        bundle inst b lb ll out fs (out ++ rel) = fs (out ++ rel)) ∧
      ∀ p, relTo out p = none → bundle inst b lb ll out fs p = fs p := by
  refine ⟨?_, ?_, ?_, fun p h => bundle_out inst b lb ll out fs p h⟩
  · intro hsep hsrc
    rw [bundle_at_out inst b lb ll out fs rel hsep, hsrc]
  · intro hsep hsrc hinst
    rw [bundle_at_out inst b lb ll out fs rel hsep, hsrc, hinst]
  · intro hsep hsrc hinst
    rw [bundle_at_out inst b lb ll out fs rel hsep, hsrc, hinst]

/-- C5 witness: on the sample filesystem the copied source file ends up in
the output directory. -/
theorem c5_witness :
    bundle inst0 none (some ["app"]) none ["o"] fs0 (["o"] ++ ["main.py"]) =
      some "MAIN" :=
  (c5_bundle_merge inst0 none (some ["app"]) none ["o"] fs0 ["main.py"] "MAIN").1 rfl rfl

/-- C6 counterexample: on a store with no entries, stack construction does
not complete: reading the project tag value from the undefined record
raises AttributeError. -/
theorem c6_counterexample :
    cdkUtilStackInit emptyStore = Except.error PyErr.attributeError := rfl

/-- C6 amended: when resolution yields no record, CdkUtilStack construction
fails with an AttributeError at the first tag-value read instead of
completing with undefined tag values. -/
theorem c6_crash_on_missing (store : ContextStore)
    (h : get_environment_specific_config store ENVIRONMENT_CONFIG_VAR = PyVal.none) :
    cdkUtilStackInit store = Except.error PyErr.attributeError := by
  simp [cdkUtilStackInit, h, pyGet]

/-- C6 amended witness: a store whose second hop misses makes construction
fail. -/
theorem c6_witness :
    cdkUtilStackInit halfStore = Except.error PyErr.attributeError :=
  c6_crash_on_missing halfStore rfl

/-- C7 counterexample: the caller passes a concurrency reservation of 7,
yet the constructed Function record carries none, and the whole result is
identical to the call that passed no reservation: the parameter is
dropped, not passed through. -/
theorem c7_counterexample :
    (factory0.basic_lambda "stk" "fn" "srcp" "basep" "rel" 30 "desc" 128 0
        none none none none (some 7) none none).1.reserved_concurrent_executions = none ∧
      factory0.basic_lambda "stk" "fn" "srcp" "basep" "rel" 30 "desc" 128 0
          none none none none (some 7) none none =
        factory0.basic_lambda "stk" "fn" "srcp" "basep" "rel" 30 "desc" 128 0
          none none none none none none none :=
  ⟨rfl, rfl⟩

/-- C7 amended: the factory parameters are forwarded to the Function
constructor with only null-coalescing defaults applied, with two
exceptions: the environment map is forwarded only after the factory
default_env is merged into it (defaults overwriting shared keys), and
reserved_concurrent_executions is accepted but never forwarded, so the
constructor always receives none for it. -/
theorem c7_passthrough (self : CdkUtilLambda)
    (stack name src_path base_path rel_src_path : String)
    (timeout_sec : Nat) (description : String) (memory_size retry_attempts : Nat)
    (environment : Option EnvMap) (lambda_runtime log_retention : Option String)
    (layers : Option (List String)) (rce : Option Nat) (dlq role : Option String) :
    let r := (self.basic_lambda stack name src_path base_path rel_src_path timeout_sec
      description memory_size retry_attempts environment lambda_runtime log_retention
      layers rce dlq role).1
    r.runtime = lambda_runtime.getD self.default_runtime ∧
      r.log_retention = log_retention.getD self.default_log_retention ∧
      r.reserved_concurrent_executions = none ∧
      r.layers = layers.getD [] ∧
      r.timeout_seconds = timeout_sec ∧
      r.retry_attempts = retry_attempts ∧
      r.memory_size = memory_size ∧
      r.description = description ∧
      r.dead_letter_queue = dlq ∧
      r.role = role ∧
      r.environment = pyDictUpdate (environment.getD (fun _ => none)) self.default_env :=
  ⟨rfl, rfl, rfl, rfl, rfl, rfl, rfl, rfl, rfl, rfl, rfl⟩

/-- C8: after basic_lambda, the caller-passed environment dict holds the
merge of itself with the factory defaults (the source updates it in
place), the Function receives that same merged map, and on every shared
key the factory default value overwrites the caller-supplied value. -/
theorem c8_defaults_overwrite (self : CdkUtilLambda)
    (stack name src_path base_path rel_src_path : String)
    (timeout_sec : Nat) (description : String) (memory_size retry_attempts : Nat)
    (m : EnvMap) (lambda_runtime log_retention : Option String)
    (layers : Option (List String)) (rce : Option Nat) (dlq role : Option String) :
    (self.basic_lambda stack name src_path base_path rel_src_path timeout_sec description
        memory_size retry_attempts (some m) lambda_runtime log_retention layers
        rce dlq role).2 = pyDictUpdate m self.default_env ∧
      (self.basic_lambda stack name src_path base_path rel_src_path timeout_sec description
          memory_size retry_attempts (some m) lambda_runtime log_retention layers
          rce dlq role).1.environment = pyDictUpdate m self.default_env ∧
      ∀ k v1 v2, m k = some v1 → self.default_env k = some v2 →
        pyDictUpdate m self.default_env k = some v2 := by
  refine ⟨rfl, rfl, ?_⟩
  intro k v1 v2 h1 h2
  simp [pyDictUpdate, h2]

/-- C8 witness: the caller value at the shared key is lost to the factory
default. -/
theorem c8_witness :
    pyDictUpdate envCaller0 factory0.default_env "SHARED" = some "default-value" :=
  (c8_defaults_overwrite factory0 "stk" "fn" "srcp" "basep" "rel" 30 "desc" 128 0
      envCaller0 none none none none none none).2.2
    "SHARED" "caller-value" "default-value" rfl rfl

/-- C9: bundle ignores base_dir and local_lib entirely: any two calls
agreeing on the installer, local_base_dir, output_dir and filesystem
produce identical results and side effects. -/
theorem c9_unused_params (inst : Installer) (b1 b2 l1 l2 lb : Option FPath)
    (out : FPath) (fs : FS) :
    bundle inst b1 lb l1 out fs = bundle inst b2 lb l2 out fs := rfl

/-- C10: when the local_base_dir tree is disjoint from output_dir (so the
manifest and source contents are the same for both invocations), bundling
twice yields the same output filesystem as bundling once, at every path. -/
theorem c10_idempotent (inst : Installer) (b lb ll : Option FPath) (out : FPath)
    (fs : FS) (hsep : ∀ r, relTo out (pyPath lb ++ r) = none) (p : FPath) :
    bundle inst b lb ll out (bundle inst b lb ll out fs) p =
      bundle inst b lb ll out fs p := by
  have hm : relTo out (pyPath lb ++ ["requirements.txt"]) = none := hsep _
  have hs : ∀ r, relTo out (pyPath lb ++ ["src"] ++ r) = none := by
    intro r
    have h := hsep (["src"] ++ r)
    rwa [← List.append_assoc] at h
  have f1 : bundle inst b lb ll out fs (pyPath lb ++ ["requirements.txt"]) =
      fs (pyPath lb ++ ["requirements.txt"]) :=
    bundle_out inst b lb ll out fs _ hm
  cases hrel : relTo out p with
  | none =>
    rw [bundle_out inst b lb ll out _ p hrel]
  | some rel =>
    have hp := relTo_some out p rel hrel
    subst hp
    have hsrel := hs rel
    have f2 : bundle inst b lb ll out fs (pyPath lb ++ ["src"] ++ rel) =
        fs (pyPath lb ++ ["src"] ++ rel) :=
      bundle_out inst b lb ll out fs _ hsrel
    rw [bundle_at_out inst b lb ll out (bundle inst b lb ll out fs) rel hsrel, f2, f1]
    cases hfs : fs (pyPath lb ++ ["src"] ++ rel) with
    | some c =>
      rw [bundle_at_out inst b lb ll out fs rel hsrel, hfs]
    | none =>
      cases hT : inst.files (fs (pyPath lb ++ ["requirements.txt"])) rel with
      | some c =>
        rw [bundle_at_out inst b lb ll out fs rel hsrel, hfs, hT]
      | none =>
        rw [bundle_at_out inst b lb ll out fs rel hsrel, hfs, hT]

/-- C10 witness: bundling the sample inputs twice leaves the installed file
unchanged at its output path. -/
theorem c10_witness :
    bundle inst0 none (some ["app"]) none ["o"]
        (bundle inst0 none (some ["app"]) none ["o"] fs0) ["o", "dep.py"] =
      bundle inst0 none (some ["app"]) none ["o"] fs0 ["o", "dep.py"] :=
  c10_idempotent inst0 none (some ["app"]) none ["o"] fs0 (fun _ => rfl) ["o", "dep.py"]
